import Mathlib

/-!
Verification of the catalog filter-group aggregation engine
(`useProvideEntityFilters` and its helpers `buildStates` and
`buildMatchingEntities`).

The embedding models:
* the Filter Group Registry as an insertion-ordered association list
  (a JS object keyed by group id),
* the Selection Set as an insertion-ordered duplicate-free list of
  selection keys (a JS `Set<string>` of `filterGroupId.filterId` keys),
* the pure matching engine `buildMatchingEntities` / `buildStates`,
* the mutation entry points `register`, `unregister` and
  `setGroupSelectedFilters` as transitions on an `EngineState`.

In the source the three mutation callbacks recompute the published state
with the closure variable `filterGroups`, which still holds the registry
value from before the `setFilterGroups` update (a React state setter does
not change the local binding); the transitions below reproduce that
faithfully: the registry field is updated, but the recomputation reads the
old registry.

Entities are an arbitrary type `α` (the engine only passes them to
predicates); the entity-load error is an arbitrary type `ε`.
-/

namespace Backstage

/-- A filter group: filter id → predicate, in insertion order. -/
structure FilterGroup (α : Type) where
  filters : List (String × (α → Bool))

/-- Per-filter slot of a ready group state (`{isSelected, matchCount}`). -/
structure FilterState where
  isSelected : Bool
  matchCount : Nat
deriving DecidableEq, Repr

/-- The per-filter map of a ready group state. -/
structure FilterGroupState where
  filters : List (String × FilterState)
deriving DecidableEq, Repr

/-- Discriminated group state: `error`, `loading` or `ready`. -/
inductive FilterGroupStates (ε : Type) where
  | error (err : ε)
  | loading
  | ready (state : FilterGroupState)
deriving DecidableEq, Repr

/-- Selection keys are on the format `filterGroupId.filterId`. -/
def selectionKey (filterGroupId filterId : String) : String :=
  filterGroupId ++ "." ++ filterId

/-- The predicates of the filters of one group that are currently selected
(their selection key is in the selection set), in group order. -/
def selectedGroupFns (selectedFilterKeys : List String) (filterGroupId : String)
    (filterGroup : FilterGroup α) : List (α → Bool) :=
  (filterGroup.filters.filter
    (fun p => selectedFilterKeys.contains (selectionKey filterGroupId p.1))).map Prod.snd

/-- One combined filter function per registered group that has at least one
selected filter: OR within the group. A group with nothing selected is
skipped, as is the excluded group. -/
def allFilters (filterGroups : List (String × FilterGroup α))
    (selectedFilterKeys : List String) (excludeFilterGroupId : Option String) :
    List (α → Bool) :=
  filterGroups.filterMap (fun p =>
    if excludeFilterGroupId = some p.1 then none
    else if (selectedGroupFns selectedFilterKeys p.1 p.2).isEmpty then none
    else some (fun entity =>
      (selectedGroupFns selectedFilterKeys p.1 p.2).any (fun fn => fn entity)))

/-- `buildMatchingEntities`: the entities matching every group filter;
empty when entities have not loaded. -/
def buildMatchingEntities (filterGroups : List (String × FilterGroup α))
    (selectedFilterKeys : List String) (entities : Option (List α))
    (excludeFilterGroupId : Option String) : List α :=
  match entities with
  | none => []
  | some es =>
    es.filter (fun entity =>
      (allFilters filterGroups selectedFilterKeys excludeFilterGroupId).all
        (fun fn => fn entity))

/-- `buildStates`: the state of each individual filter group, given the
loading state of entities. -/
def buildStates (filterGroups : List (String × FilterGroup α))
    (selectedFilterKeys : List String) (entities : Option (List α))
    (error : Option ε) : List (String × FilterGroupStates ε) :=
  match error with
  | some err =>
    filterGroups.map (fun p => (p.1, FilterGroupStates.error err))
  | none =>
    match entities with
    | none =>
      filterGroups.map (fun p => (p.1, FilterGroupStates.loading))
    | some es =>
      filterGroups.map (fun p =>
        (p.1, FilterGroupStates.ready
          ⟨p.2.filters.map (fun q =>
            (q.1, ⟨selectedFilterKeys.contains (selectionKey p.1 q.1),
                   ((buildMatchingEntities filterGroups selectedFilterKeys (some es)
                       (some p.1)).filter q.2).length⟩))⟩))

/-- The mutable state of the provider: registry, published per-group state
map, selection set and published matching entities. -/
structure EngineState (α ε : Type) where
  filterGroups : List (String × FilterGroup α)
  filterGroupStates : List (String × FilterGroupStates ε)
  selectedFilterKeys : List String
  matchingEntities : List α

/-- Fresh provider state: everything empty. -/
def initialState (α ε : Type) : EngineState α ε := ⟨[], [], [], []⟩

/-- JS object insert (`{...old, [id]: group}` shape): replace in place when
the key exists, append otherwise. -/
def insertGroup (filterGroups : List (String × FilterGroup α)) (filterGroupId : String)
    (filterGroup : FilterGroup α) : List (String × FilterGroup α) :=
  if filterGroups.any (fun p => p.1 == filterGroupId) then
    filterGroups.map (fun p =>
      if p.1 == filterGroupId then (filterGroupId, filterGroup) else p)
  else
    filterGroups ++ [(filterGroupId, filterGroup)]

/-- JS `Set.add`: no duplicates, insertion order kept. -/
def addKey (keys : List String) (key : String) : List String :=
  if keys.contains key then keys else keys ++ [key]

/-- JS `key.startsWith(pre)`: the characters of `pre` are a prefix of the
characters of `key`. -/
def startsWithKey (key pre : String) : Bool :=
  pre.data.isPrefixOf key.data

/-- `register(filterGroupId, filterGroup, initialSelectedFilterIds?)`.
Fields in order: registry (new group inserted), published states
(recomputed from the pre-mutation registry, as in the source), selection
set (initial ids merged in additively), matching entities (also from the
pre-mutation registry). -/
def register (s : EngineState α ε) (entities : Option (List α)) (error : Option ε)
    (filterGroupId : String) (filterGroup : FilterGroup α)
    (initialSelectedFilterIds : Option (List String)) : EngineState α ε :=
  let newKeys :=
    match initialSelectedFilterIds with
    | some ids =>
      if ids.isEmpty then s.selectedFilterKeys
      else ids.foldl (fun keys filterId => addKey keys (selectionKey filterGroupId filterId))
        s.selectedFilterKeys
    | none => s.selectedFilterKeys
  ⟨insertGroup s.filterGroups filterGroupId filterGroup,
   buildStates s.filterGroups newKeys entities error,
   newKeys,
   buildMatchingEntities s.filterGroups newKeys entities none⟩

/-- `unregister(filterGroupId)`. The targeted deletion of the group's state
entry is immediately overwritten by the wholesale recomputation, which
reads the pre-mutation registry (still containing the group); the
selection set is left untouched. -/
def unregister (s : EngineState α ε) (entities : Option (List α)) (error : Option ε)
    (filterGroupId : String) : EngineState α ε :=
  ⟨s.filterGroups.filter (fun p => !(p.1 == filterGroupId)),
   buildStates s.filterGroups s.selectedFilterKeys entities error,
   s.selectedFilterKeys,
   buildMatchingEntities s.filterGroups s.selectedFilterKeys entities none⟩

/-- `setGroupSelectedFilters(filterGroupId, filters)`: drop every key that
starts with `filterGroupId.`, then add `filterGroupId.filterId` for each
given id; recompute (the registry is not mutated here, so the closure
value is current). -/
def setGroupSelectedFilters (s : EngineState α ε) (entities : Option (List α))
    (error : Option ε) (filterGroupId : String) (filters : List String) :
    EngineState α ε :=
  let newKeys :=
    filters.foldl (fun keys filterId => addKey keys (selectionKey filterGroupId filterId))
      (s.selectedFilterKeys.filter (fun key => !(startsWithKey key (filterGroupId ++ "."))))
  ⟨s.filterGroups,
   buildStates s.filterGroups newKeys entities error,
   newKeys,
   buildMatchingEntities s.filterGroups newKeys entities none⟩

/-! ### Helper lemmas -/

/-- Membership in a JS-set insertion. -/
theorem mem_addKey {keys : List String} {key k : String} :
    k ∈ addKey keys key ↔ k ∈ keys ∨ k = key := by
  unfold addKey
  split
  · next h =>
    constructor
    · exact Or.inl
    · rintro (hk | rfl)
      · exact hk
      · exact List.elem_iff.mp h
  · simp

/-- Membership after folding JS-set insertions of one group's keys. -/
theorem mem_foldl_addKey (filterGroupId : String) (filterIds : List String)
    (keys : List String) (k : String) :
    k ∈ filterIds.foldl (fun ks fid => addKey ks (selectionKey filterGroupId fid)) keys ↔
      k ∈ keys ∨ ∃ fid ∈ filterIds, k = selectionKey filterGroupId fid := by
  induction filterIds generalizing keys with
  | nil => simp
  | cons f fs ih =>
    rw [List.foldl_cons, ih, mem_addKey]
    simp only [List.mem_cons]
    constructor
    · rintro ((hk | rfl) | ⟨fid, hfid, rfl⟩)
      · exact Or.inl hk
      · exact Or.inr ⟨f, Or.inl rfl, rfl⟩
      · exact Or.inr ⟨fid, Or.inr hfid, rfl⟩
    · rintro (hk | ⟨fid, rfl | hfid, rfl⟩)
      · exact Or.inl (Or.inl hk)
      · exact Or.inl (Or.inr rfl)
      · exact Or.inr ⟨fid, hfid, rfl⟩

/-- Looking up a key that occurs as no first component yields nothing. -/
theorem lookup_map_eq_none {β γ : Type} (l : List (String × β)) (f : String × β → γ)
    (x : String) (h : ∀ p ∈ l, p.1 ≠ x) :
    List.lookup x (l.map (fun p => (p.1, f p))) = none := by
  induction l with
  | nil => rfl
  | cons p ps ih =>
    have hxp : (x == p.1) = false := by
      have hne := h p (List.mem_cons_self p ps)
      simp only [beq_eq_false_iff_ne, ne_eq]
      exact fun e => hne e.symm
    rw [List.map_cons, List.lookup_cons]
    simp only [hxp]
    exact ih fun q hq => h q (List.mem_cons_of_mem p hq)

/-- Mapping a pair-rebuilding function keeps the first components. -/
theorem map_fst_map_pair {β γ : Type} (l : List (String × β)) (g : String × β → γ) :
    (l.map (fun p => (p.1, g p))).map Prod.fst = l.map Prod.fst := by
  induction l with
  | nil => rfl
  | cons p ps ih => simp only [List.map_cons, ih]

/-! ### Claims -/

/-- Claim C5: with the entity collection absent, `buildMatchingEntities`
returns the empty sequence; with it present, the result is an ordered
subsequence of the input entity sequence (no duplication, no reordering). -/
theorem buildMatchingEntities_empty_or_sublist
    (filterGroups : List (String × FilterGroup α)) (selectedFilterKeys : List String)
    (excludeFilterGroupId : Option String) :
    buildMatchingEntities filterGroups selectedFilterKeys none excludeFilterGroupId
        = ([] : List α)
    ∧ ∀ es : List α,
        List.Sublist
          (buildMatchingEntities filterGroups selectedFilterKeys (some es)
            excludeFilterGroupId)
          es :=
  ⟨rfl, fun es => List.filter_sublist es⟩

/-- Claim C4: `buildStates` case-splits three ways: with an error set every
registered group maps to that same error, regardless of entities; else with
entities absent every group maps to loading; else the key list equals the
registry key list and every published state is ready. -/
theorem buildStates_three_way_split
    (filterGroups : List (String × FilterGroup α)) (selectedFilterKeys : List String)
    (entities : Option (List α)) (err : ε) :
    buildStates filterGroups selectedFilterKeys entities (some err)
        = filterGroups.map (fun p => (p.1, FilterGroupStates.error err))
    ∧ buildStates filterGroups selectedFilterKeys (none : Option (List α)) (none : Option ε)
        = filterGroups.map (fun p => (p.1, FilterGroupStates.loading))
    ∧ ∀ es : List α,
        (buildStates filterGroups selectedFilterKeys (some es) (none : Option ε)).map
            Prod.fst
          = filterGroups.map Prod.fst
        ∧ ∀ q ∈ buildStates filterGroups selectedFilterKeys (some es) (none : Option ε),
            ∃ st, q.2 = FilterGroupStates.ready st := by
  refine ⟨rfl, rfl, fun es => ⟨map_fst_map_pair filterGroups _, fun q hq => ?_⟩⟩
  obtain ⟨p, hp, rfl⟩ := List.mem_map.mp hq
  exact ⟨_, rfl⟩

/-- Claim C2: with entities present and no excluded group, an entity is in
the result of `buildMatchingEntities` exactly when it is an input entity
and, for every registered group that has at least one selected filter, some
selected filter of that group accepts it (OR within a group, AND across
groups, vacuously true when no group contributes). -/
theorem mem_buildMatchingEntities
    (filterGroups : List (String × FilterGroup α)) (selectedFilterKeys : List String)
    (es : List α) (e : α) :
    e ∈ buildMatchingEntities filterGroups selectedFilterKeys (some es) none ↔
      e ∈ es ∧ ∀ p ∈ filterGroups,
        selectedGroupFns selectedFilterKeys p.1 p.2 ≠ [] →
          ∃ fn ∈ selectedGroupFns selectedFilterKeys p.1 p.2, fn e = true := by
  show e ∈ es.filter _ ↔ _
  rw [List.mem_filter, List.all_eq_true]
  refine and_congr_right fun _ => ⟨fun h p hp hne => ?_, fun h fn hfn => ?_⟩
  · have hmem : (fun entity =>
        (selectedGroupFns selectedFilterKeys p.1 p.2).any (fun fn => fn entity)) ∈
          allFilters filterGroups selectedFilterKeys none := by
      rw [allFilters, List.mem_filterMap]
      refine ⟨p, hp, ?_⟩
      simp [List.isEmpty_iff, hne]
    have h2 := h _ hmem
    simpa only [List.any_eq_true] using h2
  · obtain ⟨p, hp, hsome⟩ := List.mem_filterMap.mp hfn
    split at hsome
    · exact Option.noConfusion hsome
    · split at hsome
      · exact Option.noConfusion hsome
      · next hne =>
        obtain rfl := Option.some.inj hsome
        have hne2 : selectedGroupFns selectedFilterKeys p.1 p.2 ≠ [] := by
          simpa [List.isEmpty_iff] using hne
        exact List.any_eq_true.mpr (h p hp hne2)

/-- Claim C3: in the ready state that `buildStates` publishes for a
registered group, the matchCount of every filter of that group is the
number of entities accepted by that filter among
`buildMatchingEntities` with that very group excluded (the set narrowed
only by the other groups' selections). -/
theorem buildStates_matchCount_self_exclusion
    (filterGroups : List (String × FilterGroup α)) (selectedFilterKeys : List String)
    (es : List α) (filterGroupId : String) (filterGroup : FilterGroup α)
    (filterId : String) (filterFn : α → Bool)
    (hg : (filterGroupId, filterGroup) ∈ filterGroups)
    (hf : (filterId, filterFn) ∈ filterGroup.filters) :
    ∃ st : FilterGroupState,
      (filterGroupId, FilterGroupStates.ready st) ∈
        buildStates filterGroups selectedFilterKeys (some es) (none : Option ε)
      ∧ (filterId,
          (⟨selectedFilterKeys.contains (selectionKey filterGroupId filterId),
            ((buildMatchingEntities filterGroups selectedFilterKeys (some es)
                (some filterGroupId)).filter filterFn).length⟩ : FilterState)) ∈
          st.filters := by
  refine ⟨⟨filterGroup.filters.map (fun q =>
    (q.1, ⟨selectedFilterKeys.contains (selectionKey filterGroupId q.1),
      ((buildMatchingEntities filterGroups selectedFilterKeys (some es)
          (some filterGroupId)).filter q.2).length⟩))⟩, ?_, ?_⟩
  · exact List.mem_map_of_mem _ hg
  · exact List.mem_map_of_mem _ hf

/-- Claim C3 witness: one registry with group g over filter f on Nat
entities. -/
theorem buildStates_matchCount_self_exclusion_witness :
    ∃ st : FilterGroupState,
      ("g", FilterGroupStates.ready st) ∈
        buildStates [("g", FilterGroup.mk [("f", fun n => decide (1 < n))])]
          ([] : List String) (some [1, 2, 3]) (none : Option Unit)
      ∧ ("f",
          (⟨List.contains ([] : List String) (selectionKey "g" "f"),
            ((buildMatchingEntities
                [("g", FilterGroup.mk [("f", fun n => decide (1 < n))])]
                ([] : List String) (some [1, 2, 3]) (some "g")).filter
              (fun n => decide (1 < n))).length⟩ : FilterState)) ∈
          st.filters :=
  buildStates_matchCount_self_exclusion _ _ _ _ _ _ _
    (List.mem_singleton.mpr rfl) (List.mem_singleton.mpr rfl)

/-- Claim C6: when no registered group has any selected filter,
`buildMatchingEntities` returns the input entity sequence unchanged. -/
theorem buildMatchingEntities_vacuous
    (filterGroups : List (String × FilterGroup α)) (selectedFilterKeys : List String)
    (es : List α)
    (h : ∀ p ∈ filterGroups, selectedGroupFns selectedFilterKeys p.1 p.2 = []) :
    buildMatchingEntities filterGroups selectedFilterKeys (some es) none = es := by
  have hall : allFilters filterGroups selectedFilterKeys (none : Option String) = [] := by
    rw [allFilters, List.filterMap_eq_nil_iff]
    intro p hp
    simp [h p hp]
  show es.filter _ = es
  rw [List.filter_eq_self]
  intro a _
  rw [List.all_eq_true]
  intro fn hfn
  rw [hall] at hfn
  exact absurd hfn (List.not_mem_nil fn)

/-- Claim C6 witness: a registry with one group, a stale selection key of a
different group, entities present. -/
theorem buildMatchingEntities_vacuous_witness :
    buildMatchingEntities [("g", FilterGroup.mk [("f", fun n => decide (n = 0))])]
        ["h.f"] (some [5, 6]) none = [5, 6] :=
  buildMatchingEntities_vacuous _ _ _ (by
    intro p hp
    rw [List.mem_singleton] at hp
    subst hp
    rfl)

/-- Claim C7: after `setGroupSelectedFilters(groupId, filterIds)` a key is
selected exactly when it was selected before and does not start with
`groupId.`, or it is `groupId.filterId` for some id in the input — so the
group's old keys are removed, the given ids are added with set semantics,
and keys of other groups (not prefixed `groupId.`) are untouched. -/
theorem setGroupSelectedFilters_selection
    (s : EngineState α ε) (entities : Option (List α)) (error : Option ε)
    (filterGroupId : String) (filterIds : List String) (k : String) :
    k ∈ (setGroupSelectedFilters s entities error filterGroupId
          filterIds).selectedFilterKeys ↔
      (k ∈ s.selectedFilterKeys ∧ startsWithKey k (filterGroupId ++ ".") = false)
      ∨ ∃ fid ∈ filterIds, k = selectionKey filterGroupId fid := by
  show k ∈ filterIds.foldl _ (s.selectedFilterKeys.filter _) ↔ _
  rw [mem_foldl_addKey, List.mem_filter]
  simp only [Bool.not_eq_true']

/-- Claim C9: select filter x in group g, unregister g, re-register g with a
group lacking x: computing group states from the resulting registry and
selection set with entities present yields a ready state for g whose
per-filter map has no entry for x, while the stale key `g.x` is still in
the selection set and is simply ignored (every operation is total). -/
theorem staleSelection_harmless (es : List α) (g1 g2 : FilterGroup α)
    (h : ∀ p ∈ g2.filters, p.1 ≠ "x") :
    let s1 := register (initialState α Unit) (some es) none "g" g1 none
    let s2 := setGroupSelectedFilters s1 (some es) none "g" ["x"]
    let s3 := unregister s2 (some es) none "g"
    let s4 := register s3 (some es) none "g" g2 none
    ∃ st : FilterGroupState,
      List.lookup "g"
          (buildStates s4.filterGroups s4.selectedFilterKeys (some es)
            (none : Option Unit)) = some (FilterGroupStates.ready st)
      ∧ List.lookup "x" st.filters = none
      ∧ selectionKey "g" "x" ∈ s4.selectedFilterKeys := by
  intro s1 s2 s3 s4
  have hreg : s4.filterGroups = [("g", g2)] := rfl
  have hkeys : s4.selectedFilterKeys = [selectionKey "g" "x"] := rfl
  rw [hreg, hkeys]
  refine ⟨⟨g2.filters.map (fun q =>
    (q.1, ⟨[selectionKey "g" "x"].contains (selectionKey "g" q.1),
      ((buildMatchingEntities [("g", g2)] [selectionKey "g" "x"] (some es)
          (some "g")).filter q.2).length⟩))⟩, ?_, ?_, ?_⟩
  · rfl
  · exact lookup_map_eq_none g2.filters _ "x" h
  · exact List.mem_singleton.mpr rfl

/-- Claim C9 witness: Nat entities, g first carries filter x, then a group
carrying only filter y. -/
theorem staleSelection_harmless_witness :
    let s1 := register (initialState Nat Unit) (some [0, 1]) none "g"
      (FilterGroup.mk [("x", fun _ => true)]) none
    let s2 := setGroupSelectedFilters s1 (some [0, 1]) none "g" ["x"]
    let s3 := unregister s2 (some [0, 1]) none "g"
    let s4 := register s3 (some [0, 1]) none "g"
      (FilterGroup.mk [("y", fun _ => true)]) none
    ∃ st : FilterGroupState,
      List.lookup "g"
          (buildStates s4.filterGroups s4.selectedFilterKeys (some [0, 1])
            (none : Option Unit)) = some (FilterGroupStates.ready st)
      ∧ List.lookup "x" st.filters = none
      ∧ selectionKey "g" "x" ∈ s4.selectedFilterKeys :=
  staleSelection_harmless [0, 1] (FilterGroup.mk [("x", fun _ => true)])
    (FilterGroup.mk [("y", fun _ => true)]) (by
      intro p hp
      rw [List.mem_singleton] at hp
      subst hp
      decide)

/-- Claim C1 evaluated at its failing input: registering group g into a
fresh provider with entities loaded publishes the state map computed from
the pre-mutation (empty) registry, so the registry has exactly the key g
while the published per-group state map is empty. -/
theorem register_publishes_stale_state_map :
    ((register (initialState Nat Unit) (some ([] : List Nat)) none "g"
        (FilterGroup.mk []) none).filterGroups).map Prod.fst = ["g"]
    ∧ (register (initialState Nat Unit) (some ([] : List Nat)) none "g"
        (FilterGroup.mk []) none).filterGroupStates = [] :=
  ⟨rfl, rfl⟩

/-- Claim C8 evaluated at its failing input: unregistering the only group g
empties the registry and leaves the selection set alone, but the wholesale
recomputation from the pre-mutation registry re-publishes a state entry
for g. -/
theorem unregister_keeps_stale_state_entry :
    (unregister (register (initialState Nat Unit) (some ([] : List Nat)) none "g"
        (FilterGroup.mk []) none) (some ([] : List Nat)) none "g").filterGroups = []
    ∧ ((unregister (register (initialState Nat Unit) (some ([] : List Nat)) none "g"
        (FilterGroup.mk []) none) (some ([] : List Nat)) none
          "g").filterGroupStates).map Prod.fst = ["g"]
    ∧ (unregister (register (initialState Nat Unit) (some ([] : List Nat)) none "g"
        (FilterGroup.mk []) none) (some ([] : List Nat)) none "g").selectedFilterKeys
      = (register (initialState Nat Unit) (some ([] : List Nat)) none "g"
          (FilterGroup.mk []) none).selectedFilterKeys :=
  ⟨rfl, rfl, rfl⟩

/-- Claim C10: the key encoding is not injective — `("a", "b.x")` and
`("a.b", "x")` both encode to `a.b.x` — so after selecting x in group a.b,
the filter b.x of group a is reported selected (and its matchCount is
computed with a excluded, here 1), and `setGroupSelectedFilters("a", [])`
also removes the key that group a.b had put in the selection set. -/
theorem selectionKey_not_injective_crosstalk :
    let ga : FilterGroup Nat := ⟨[("b.x", fun n => decide (n % 2 = 0))]⟩
    let gb : FilterGroup Nat := ⟨[("x", fun n => decide (0 < n))]⟩
    let s1 := register (initialState Nat Unit) (some [1, 2]) none "a" ga none
    let s2 := register s1 (some [1, 2]) none "a.b" gb none
    let s3 := setGroupSelectedFilters s2 (some [1, 2]) none "a.b" ["x"]
    selectionKey "a" "b.x" = selectionKey "a.b" "x"
    ∧ List.lookup "a"
        (buildStates s3.filterGroups s3.selectedFilterKeys (some [1, 2])
          (none : Option Unit))
        = some (FilterGroupStates.ready ⟨[("b.x", ⟨true, 1⟩)]⟩)
    ∧ (setGroupSelectedFilters s3 (some [1, 2]) none "a"
        ([] : List String)).selectedFilterKeys = [] :=
  ⟨rfl, rfl, rfl⟩

end Backstage
